import Mathlib

/-!
Verification of the workflow-orchestration engine of the bridge_ide repository:
the graph routing (`app/graph/workflow.py`), the per-request state and its
merge semantics (`app/graph/state.py`, the `PROJECT_STATES` store in
`app/api/agent_routes.py`), the pipeline stages (`app/agents/*.py`), and the
server-sent-event stream of the `/generate`, `/refine` and `/status` endpoints
(`app/api/agent_routes.py`).

Python dictionaries are embedded as association lists over `String` keys;
`dict.get` returns an `Option`, `dict.update` merges key-by-key at the top
level, and Python truthiness of an optional string is explicit.  A stage's
external LLM call is embedded as an input of type `LLMRes`: `ok` carries the
structured value the call would return, `fail` stands for the call raising.
Stages without a `try/except` around the call are therefore partial functions
returning `Except`, exactly as the exception would propagate.
-/

namespace BridgeIDE

/-- Lookup in a string-keyed association list (first binding wins), embedding
Python `dict[k]` / `dict.get(k)`. -/
def alookup {β : Type} : List (String × β) → String → Option β
  | [], _ => none
  | kv :: rest, k => if kv.1 = k then some kv.2 else alookup rest k

/-- Membership test, embedding Python `k in dict`. -/
def hasKey {β : Type} : List (String × β) → String → Bool
  | [], _ => false
  | kv :: rest, k => kv.1 = k || hasKey rest k

/-- Assignment `dict[k] = v`: overwrite the existing binding in place, else
append a new binding. -/
def aset {β : Type} (l : List (String × β)) (k : String) (v : β) : List (String × β) :=
  if hasKey l k then l.map (fun kv => if kv.1 = k then (k, v) else kv)
  else l ++ [(k, v)]

/-- Boolean prefix test on character lists. -/
def listIsPre : List Char → List Char → Bool
  | [], _ => true
  | _ :: _, [] => false
  | a :: as, b :: bs => a == b && listIsPre as bs

/-- Boolean contiguous-sublist test on character lists. -/
def listInf (needle : List Char) : List Char → Bool
  | [] => listIsPre needle []
  | b :: bs => listIsPre needle (b :: bs) || listInf needle bs

/-- Embedding of the Python substring test `needle in hay` on strings. -/
def strIn (needle hay : String) : Bool :=
  listInf needle.toList hay.toList

/-- Boolean suffix test on strings (used only to state the spec's
"key ends in package.json" property). -/
def strEndsW (s suffix : String) : Bool :=
  listIsPre suffix.toList.reverse s.toList.reverse

/-- Python truthiness of an optional string (`None` and `""` are falsy). -/
def truthyStr : Option String → Bool
  | none => false
  | some s => !(s = "")

/-- The artifact mapping `current_files` (filename -> content),
`app/graph/state.py` line 15. -/
abbrev Files := List (String × String)

/-- The `classification` record produced by `classifier_agent`
(`ClassificationOutput` in `app/agents/classifier.py`); the routing code reads
it back with `dict.get`, so every field is optional here. -/
structure Classification where
  user_level : Option String := none
  project_type : Option String := none
  complexity : Option String := none
  requires_research : Option Bool := none
  tech_stack : Option (List String) := none
  extracted_requirements : Option (List String) := none
deriving Repr, DecidableEq

/-- The `design_spec` record produced by `design_agent`
(`DesignSpec` in `app/agents/design.py`); `file_structure` keeps only the
per-file name, the single part `code_generator_agent` extracts from it.
`components` records the optional `components` dict key that
`generate_fallback_files` looks up with `.get` (the `DesignSpec.dict()`
produced by `design_agent` never carries it). -/
structure DesignSpec where
  file_structure : List String := []
  components : Option (List String) := none
deriving Repr, DecidableEq

/-- The per-project state dictionary (`ProjectState` in `app/graph/state.py`,
plus the `project_id` key that `get_status` writes into the stored dict). -/
structure ProjectState where
  original_prompt : String
  user_id : String
  conversation_history : List String := []
  current_files : Files := []
  user_feedback : Option String := none
  iteration_count : Nat := 0
  classification : Option Classification := none
  research_context : Option String := none
  design_spec : Option DesignSpec := none
  execution_results : Option String := none
  project_id : Option String := none
deriving Repr, DecidableEq

/-- A stage patch: the partial state update a node returns; `none` means the
dict key is absent from the patch. -/
structure Patch where
  classification : Option Classification := none
  research_context : Option String := none
  design_spec : Option DesignSpec := none
  current_files : Option Files := none
  iteration_count : Option Nat := none
  execution_results : Option String := none
deriving Repr, DecidableEq

/-- The empty patch `{}` (returned by `router_node`). -/
def emptyPatch : Patch := {}

/-- Python truthiness of a patch dict: empty means no key present. -/
def Patch.isEmptyP (p : Patch) : Bool :=
  p.classification.isNone && p.research_context.isNone && p.design_spec.isNone &&
  p.current_files.isNone && p.iteration_count.isNone && p.execution_results.isNone

/-- Key-present-in-patch overriding for an optional state field. -/
def pfield {α : Type} (pv sv : Option α) : Option α :=
  match pv with
  | some v => some v
  | none => sv

/-- Top-level key-by-key merge of a patch into a state: Python
`dict.update(patch)` (also the LangGraph last-value channel merge).  Every key
present in the patch replaces the stored value wholesale. -/
def applyPatch (s : ProjectState) (p : Patch) : ProjectState :=
  { s with
    classification := pfield p.classification s.classification
    research_context := pfield p.research_context s.research_context
    design_spec := pfield p.design_spec s.design_spec
    current_files := p.current_files.getD s.current_files
    iteration_count := p.iteration_count.getD s.iteration_count
    execution_results := pfield p.execution_results s.execution_results }

/-- Outcome of a stage's external LLM call: `ok` carries the value the call
returns, `fail` stands for the call raising an exception. -/
inductive LLMRes (α : Type) where
  | ok (val : α)
  | fail
deriving Repr, DecidableEq

/-- The `route_start` predicate of `define_graph` (`app/graph/workflow.py`
lines 34-37): truthy `user_feedback` routes to refinement, else classifier. -/
def route_start (s : ProjectState) : String :=
  if truthyStr s.user_feedback then "refinement" else "classifier"

/-- The `route_classifier` predicate of `define_graph`
(`app/graph/workflow.py` lines 49-57): `state.get("classification", {})`,
then compare `user_level` with "beginner" and `complexity` with "complex". -/
def route_classifier (s : ProjectState) : String :=
  let classification := s.classification.getD {}
  let user_level := classification.user_level
  let complexity := classification.complexity
  if user_level = some "beginner" ∨ complexity = some "complex" then "research"
  else "code_generator"

/-- The fallback classification dict built in the `except` branch of
`classifier_agent` (`app/agents/classifier.py` lines 148-157). -/
def fallback_classification (prompt : String) : Classification :=
  { user_level := some "beginner"
    project_type := some "web_app"
    complexity := some "medium"
    requires_research := some false
    tech_stack := some ["react", "tailwind"]
    extracted_requirements := some [prompt.take 100] }

/-- `classifier_agent` (`app/agents/classifier.py`): the LLM call is wrapped
in `try/except`; on failure the deterministic fallback classification is
returned instead of raising. -/
def classifier_agent (llm : LLMRes Classification) (s : ProjectState) : Patch :=
  match llm with
  | .ok c => { classification := some c }
  | .fail => { classification := some (fallback_classification s.original_prompt) }

/-- `research_agent` (`app/agents/research.py`): no `try/except` around the
LLM call, so a failure propagates as an exception (`Except.error`). -/
def research_agent (llm : LLMRes String) (_s : ProjectState) : Except Unit Patch :=
  match llm with
  | .ok summary => .ok { research_context := some summary }
  | .fail => .error ()

/-- `design_agent` (`app/agents/design.py`): no `try/except` around the LLM
call, so a failure propagates as an exception. -/
def design_agent (llm : LLMRes DesignSpec) (_s : ProjectState) : Except Unit Patch :=
  match llm with
  | .ok spec => .ok { design_spec := some spec }
  | .fail => .error ()

def cgFallbackPackageJson : String :=
  "\x7b\n  \"name\": \"generated-react-app\",\n  \"private\": true,\n  \"version\": \"0.0.1\",\n  \"type\": \"module\",\n  \"scripts\": \x7b\n    \"dev\": \"vite\",\n    \"build\": \"vite build\",\n    \"preview\": \"vite preview\"\n  \x7d,\n  \"dependencies\": \x7b\n    \"react\": \"^18.2.0\",\n    \"react-dom\": \"^18.2.0\"\n  \x7d,\n  \"dependencies\": \x7b\n    \"react\": \"^18.2.0\",\n    \"react-dom\": \"^18.2.0\",\n    \"react-router-dom\": \"^6.20.0\",\n    \"axios\": \"^1.6.0\"\n  \x7d,\n  \"devDependencies\": \x7b\n    \"@vitejs/plugin-react\": \"^4.2.1\",\n    \"vite\": \"^5.0.8\",\n    \"tailwindcss\": \"^3.3.6\",\n    \"autoprefixer\": \"^10.4.16\",\n    \"postcss\": \"^8.4.32\"\n  \x7d\n\x7d"

def cgFallbackViteConfig : String :=
  "import \x7b defineConfig \x7d from \x27vite\x27\nimport react from \x27@vitejs/plugin-react\x27\n\nexport default defineConfig(\x7b\n  plugins: [react()],\n  build: \x7b\n    rollupOptions: \x7b\n      onwarn(warning, warn) \x7b\n        // Suppress unresolved import warnings - treat as external\n        if (warning.code === \x27UNRESOLVED_IMPORT\x27) return;\n        warn(warning);\n      \x7d\n    \x7d\n  \x7d\n\x7d)\n"

def cgFallbackTailwindConfig : String :=
  "export default \x7b\n  content: [\n    \"./index.html\",\n    \"./src/**/*.\x7bjs,ts,jsx,tsx\x7d\",\n  ],\n  theme: \x7b\n    extend: \x7b\x7d,\n  \x7d,\n  plugins: [],\n\x7d\n"

def cgFallbackPostcssConfig : String :=
  "export default \x7b\n  plugins: \x7b\n    tailwindcss: \x7b\x7d,\n    autoprefixer: \x7b\x7d,\n  \x7d,\n\x7d\n"

def cgFallbackIndexCss : String :=
  "@tailwind base;\n@tailwind components;\n@tailwind utilities;\n"

def cgFallbackIndexHtml : String :=
  "<!DOCTYPE html>\n<html lang=\"en\">\n  <head>\n    <meta charset=\"UTF-8\" />\n    <meta name=\"viewport\" content=\"width=device-width, initial-scale=1.0\" />\n    <title>Generated App</title>\n  </head>\n  <body>\n    <div id=\"root\"></div>\n    <script type=\"module\" src=\"/src/main.jsx\"></script>\n  </body>\n</html>\n"

def cgFallbackMainJsx : String :=
  "import React from \x27react\x27\nimport ReactDOM from \x27react-dom/client\x27\nimport App from \x27./App.jsx\x27\nimport \x27./index.css\x27\n\nReactDOM.createRoot(document.getElementById(\x27root\x27)).render(\n  <React.StrictMode>\n    <App />\n  </React.StrictMode>,\n)\n"

def cgAppJsxPart0 : String :=
  "import React from \x27react\x27;\n"

def cgAppJsxPart1 : String :=
  "\n\nfunction App() \x7b\n  return (\n    <div className=\"min-h-screen bg-gradient-to-br from-gray-900 via-gray-800 to-gray-900\">\n      <div className=\"container mx-auto px-4 py-6 md:py-8 lg:py-12\">\n        "

def cgAppJsxPart2 : String :=
  "\n      </div>\n    </div>\n  );\n\x7d\n\nexport default App;\n"

def cgComponentJsxPart0 : String :=
  "import React from \x27react\x27;\n\nfunction "

def cgComponentJsxPart1 : String :=
  "() \x7b\n  return (\n    <div className=\"bg-gradient-to-br from-gray-800 to-gray-700 rounded-xl shadow-2xl p-4 md:p-6 lg:p-8 mb-4 md:mb-6\">\n      <h2 className=\"text-xl md:text-2xl lg:text-3xl font-bold text-orange-400 mb-3 md:mb-4\">"

def cgComponentJsxPart2 : String :=
  "</h2>\n      <p className=\"text-base md:text-lg text-gray-300 leading-relaxed\">This is the "

def cgComponentJsxPart3 : String :=
  " component.</p>\n      <button className=\"mt-4 bg-orange-500 hover:bg-orange-600 text-white font-semibold py-3 px-6 rounded-lg min-h-[44px] transition-colors duration-200\">\n        Learn More\n      </button>\n    </div>\n  );\n\x7d\n\nexport default "

def cgComponentJsxPart4 : String :=
  ";\n"

/-- The `component_imports` join in `generate_fallback_files`. -/
def componentImports (components : List String) : String :=
  String.intercalate "\n"
    (components.map (fun comp => "import " ++ comp ++ " from \x27./components/" ++ comp ++ ".jsx\x27;"))

/-- The `component_jsx` join in `generate_fallback_files`. -/
def componentJsx (components : List String) : String :=
  String.intercalate "\n      " (components.map (fun comp => "<" ++ comp ++ " />"))

/-- The interpolated `src/App.jsx` fallback content. -/
def cgAppJsx (components : List String) : String :=
  cgAppJsxPart0 ++ componentImports components ++ cgAppJsxPart1 ++
    componentJsx components ++ cgAppJsxPart2

/-- The interpolated per-component fallback content. -/
def cgComponentFile (comp : String) : String :=
  cgComponentJsxPart0 ++ comp ++ cgComponentJsxPart1 ++ comp ++ cgComponentJsxPart2 ++
    comp ++ cgComponentJsxPart3 ++ comp ++ cgComponentJsxPart4

/-- `generate_fallback_files` (`app/agents/code_generator.py` lines 214-363):
the deterministic template file set produced when the generation LLM call
fails.  The `file_list` argument is accepted and unused, as in the source. -/
def generate_fallback_files (_file_list : List String) (design_spec : Option DesignSpec) :
    Files :=
  let components :=
    match design_spec with
    | some d => d.components.getD ["Main"]
    | none => ["Main"]
  let files : Files := []
  let files := aset files "package.json" cgFallbackPackageJson
  let files := aset files "vite.config.js" cgFallbackViteConfig
  let files := aset files "tailwind.config.js" cgFallbackTailwindConfig
  let files := aset files "postcss.config.js" cgFallbackPostcssConfig
  let files := aset files "src/index.css" cgFallbackIndexCss
  let files := aset files "index.html" cgFallbackIndexHtml
  let files := aset files "src/main.jsx" cgFallbackMainJsx
  let files := aset files "src/App.jsx" (cgAppJsx components)
  components.foldl
    (fun fs comp => aset fs ("src/components/" ++ comp ++ ".jsx") (cgComponentFile comp))
    files

/-- `code_generator_agent` (`app/agents/code_generator.py` lines 101-211):
the LLM call is wrapped in `try/except`; on failure the template fallback
file set is returned instead of raising. -/
def code_generator_agent (llm : LLMRes Files) (s : ProjectState) : Patch :=
  let file_list :=
    match s.design_spec with
    | some d => d.file_structure
    | none => []
  match llm with
  | .ok current_files => { current_files := some current_files }
  | .fail => { current_files := some (generate_fallback_files file_list s.design_spec) }

def foDefaultPackageJson : String :=
  "\x7b\n  \"name\": \"generated-project\",\n  \"private\": true,\n  \"version\": \"0.0.0\",\n  \"type\": \"module\",\n  \"scripts\": \x7b\n    \"dev\": \"vite\",\n    \"build\": \"vite build\",\n    \"preview\": \"vite preview\"\n  \x7d,\n  \"dependencies\": \x7b\n    \"react\": \"^18.2.0\",\n    \"react-dom\": \"^18.2.0\",\n    \"react-router-dom\": \"^6.20.0\",\n    \"axios\": \"^1.6.0\"\n  \x7d,\n  \"devDependencies\": \x7b\n    \"@types/react\": \"^18.2.43\",\n    \"@types/react-dom\": \"^18.2.17\",\n    \"@vitejs/plugin-react\": \"^4.2.1\",\n    \"autoprefixer\": \"^10.4.16\",\n    \"postcss\": \"^8.4.32\",\n    \"tailwindcss\": \"^3.4.0\",\n    \"vite\": \"^5.0.8\"\n  \x7d\n\x7d"

def foDefaultIndexHtml : String :=
  "<!doctype html>\n<html lang=\"en\">\n  <head>\n    <meta charset=\"UTF-8\" />\n    <meta name=\"viewport\" content=\"width=device-width, initial-scale=1.0\" />\n    <title>Generated App</title>\n  </head>\n  <body>\n    <div id=\"root\"></div>\n    <script type=\"module\" src=\"/src/main.jsx\"></script>\n  </body>\n</html>"

def foDefaultViteConfig : String :=
  "import \x7b defineConfig \x7d from \x27vite\x27\nimport react from \x27@vitejs/plugin-react\x27\n\nexport default defineConfig(\x7b\n  plugins: [react()],\n  build: \x7b\n    outDir: \x27dist\x27,\n    sourcemap: true,\n    rollupOptions: \x7b\n      onwarn(warning, warn) \x7b\n        // Suppress unresolved import warnings - treat as external\n        if (warning.code === \x27UNRESOLVED_IMPORT\x27) return;\n        warn(warning);\n      \x7d\n    \x7d\n  \x7d,\n  resolve: \x7b\n    alias: \x7b\n      \x27@\x27: \x27/src\x27,\n    \x7d,\n  \x7d\n\x7d)"

def foDefaultPostcssConfig : String :=
  "export default \x7b\n  plugins: \x7b\n    tailwindcss: \x7b\x7d,\n    autoprefixer: \x7b\x7d,\n  \x7d,\n\x7d"

def foDefaultTailwindConfig : String :=
  "export default \x7b\n  content: [\n    \x27./index.html\x27,\n    \x27./src/**/*.\x7bjs,ts,jsx,tsx\x7d\x27,\n  ],\n  theme: \x7b\n    extend: \x7b\x7d,\n  \x7d,\n  plugins: [],\n\x7d"

def foGitignore : String := "node_modules\ndist\n.env\n"

/-- The body of `file_organizer_agent` on the copied files dict: adds default
files when missing.  The package.json / index.html checks are substring tests
over the keys (computed up front), the remaining four are exact-key
membership tests, exactly as in the source. -/
def organizeFiles (files0 : Files) : Files :=
  let has_package_json := files0.any (fun kv => strIn "package.json" kv.1)
  let has_index_html := files0.any (fun kv => strIn "index.html" kv.1)
  let files := if has_package_json then files0 else aset files0 "package.json" foDefaultPackageJson
  let files := if has_index_html then files else aset files "index.html" foDefaultIndexHtml
  let files := if hasKey files ".gitignore" then files else aset files ".gitignore" foGitignore
  let files :=
    if hasKey files "vite.config.js" then files else aset files "vite.config.js" foDefaultViteConfig
  let files :=
    if hasKey files "postcss.config.js" then files
    else aset files "postcss.config.js" foDefaultPostcssConfig
  let files :=
    if hasKey files "tailwind.config.js" then files
    else aset files "tailwind.config.js" foDefaultTailwindConfig
  files

/-- `file_organizer_agent` (`app/agents/file_organizer.py`): a pure function
of `state.get("current_files", {})`, patching `current_files` with the
organized copy. -/
def file_organizer_agent (s : ProjectState) : Patch :=
  { current_files := some (organizeFiles s.current_files) }

/-- `refinement_agent` (`app/agents/refinement.py`): with falsy feedback it
returns `{}` before any LLM call; otherwise the LLM call is not wrapped in
`try/except`, so a failure propagates.  On success the update list is merged
into a copy of the current files and the iteration counter in the patch is
the state's counter plus one (line 60). -/
def refinement_agent (llm : LLMRes (List (String × String))) (s : ProjectState) :
    Except Unit Patch :=
  if truthyStr s.user_feedback then
    match llm with
    | .fail => .error ()
    | .ok updates =>
      let updated_files := updates.foldl (fun fs f => aset fs f.1 f.2) s.current_files
      .ok { current_files := some updated_files, iteration_count := some (s.iteration_count + 1) }
  else
    .ok emptyPatch

/-- Modelled from the spec: the review stage (node `qa`, imported in
`app/graph/workflow.py` from `app.agents.qa`, a file absent from the sources).
Per the spec, the review stage writes only the `executionResults` record
(section 3: each optional record is written by exactly one stage and the
other three writers are classify, research and design) and, per the stage
adapter contract of section 4.1, returns a deterministic non-empty fallback
patch on internal failure rather than raising. -/
def qa_agent (llm : LLMRes String) (_s : ProjectState) : Patch :=
  match llm with
  | .ok results => { execution_results := some results }
  | .fail => { execution_results := some "review fallback" }

/-- One LLM-call outcome per stage that performs an external call; a traversal
is deterministic given the state and these outcomes (the stages themselves are
pure functions of both). -/
structure LLMOutcomes where
  classify : LLMRes Classification
  research : LLMRes String
  design : LLMRes DesignSpec
  codegen : LLMRes Files
  refine : LLMRes (List (String × String))
  qa : LLMRes String
deriving Repr, DecidableEq

/-- One executed graph traversal (`define_graph` in `app/graph/workflow.py`):
the node sequence starts at `router` (patch `{}`), branches by `route_start`
and `route_classifier` evaluated on the merged state, follows the static
edges `research -> design -> code_generator -> file_organizer -> qa` and
`refinement -> file_organizer -> qa`, and ends after `qa`.  The result is the
ordered list of `(node name, patch)` pairs that `graph.astream` yields (each
node is invoked on the state with all earlier patches merged in); an uncaught
stage exception aborts the traversal (`Except.error`). -/
def runGraph (o : LLMOutcomes) (s0 : ProjectState) :
    Except Unit (List (String × Patch)) :=
  let pRouter := emptyPatch
  let s1 := applyPatch s0 pRouter
  if route_start s1 = "refinement" then
    match refinement_agent o.refine s1 with
    | .error e => .error e
    | .ok p1 =>
      let s2 := applyPatch s1 p1
      let p2 := file_organizer_agent s2
      let s3 := applyPatch s2 p2
      let p3 := qa_agent o.qa s3
      .ok [("router", pRouter), ("refinement", p1), ("file_organizer", p2), ("qa", p3)]
  else
    let p1 := classifier_agent o.classify s1
    let s2 := applyPatch s1 p1
    if route_classifier s2 = "research" then
      match research_agent o.research s2 with
      | .error e => .error e
      | .ok p2 =>
        let s3 := applyPatch s2 p2
        match design_agent o.design s3 with
        | .error e => .error e
        | .ok p3 =>
          let s4 := applyPatch s3 p3
          let p4 := code_generator_agent o.codegen s4
          let s5 := applyPatch s4 p4
          let p5 := file_organizer_agent s5
          let s6 := applyPatch s5 p5
          let p6 := qa_agent o.qa s6
          .ok [("router", pRouter), ("classifier", p1), ("research", p2), ("design", p3),
               ("code_generator", p4), ("file_organizer", p5), ("qa", p6)]
    else
      let p2 := code_generator_agent o.codegen s2
      let s3 := applyPatch s2 p2
      let p3 := file_organizer_agent s3
      let s4 := applyPatch s3 p3
      let p4 := qa_agent o.qa s4
      .ok [("router", pRouter), ("classifier", p1), ("code_generator", p2),
           ("file_organizer", p3), ("qa", p4)]

/-- Merging a traversal's yielded patches into a state one by one, in order:
what both the endpoint loop (`PROJECT_STATES[project_id].update(value)`) and
the LangGraph channel merge compute. -/
def foldPatches (s : ProjectState) (trace : List (String × Patch)) : ProjectState :=
  trace.foldl (fun st np => applyPatch st np.2) s

/-- A server-sent event of the `/generate` and `/refine` streams. -/
inductive Event where
  | init (project_id : String)
  | progress (node : String) (message : String)
  | files (fs : Files)
  | complete (project_id : String) (fs : Files)
deriving Repr, DecidableEq

/-- The events emitted for one node update by `generate_project.event_generator`
(`app/api/agent_routes.py` lines 55-68): always a progress event, then a files
event when the patch dict is truthy and carries the `current_files` key (the
payload is the patch's own `current_files` value). -/
def nodeEvents (np : String × Patch) : List Event :=
  [Event.progress np.1 "Processing..."] ++
    (if !np.2.isEmptyP && np.2.current_files.isSome then
      [Event.files (np.2.current_files.getD [])]
    else [])

/-- The full event stream of `generate_project.event_generator`: one init,
the per-node events in execution order, one final complete carrying the
stored final files; the generator ends right after the complete event. -/
def genEvents (pid : String) (trace : List (String × Patch)) (finalFiles : Files) :
    List Event :=
  [Event.init pid] ++ (trace.map nodeEvents).flatten ++ [Event.complete pid finalFiles]

/-- The full event stream of `refine_project.event_generator`
(`app/api/agent_routes.py` lines 100-111): one init, one progress event per
node, one final complete; this generator emits no files events. -/
def refineEvents (pid : String) (trace : List (String × Patch)) (finalFiles : Files) :
    List Event :=
  [Event.init pid] ++ trace.map (fun np => Event.progress np.1 "Refining...") ++
    [Event.complete pid finalFiles]

/-- The in-memory `PROJECT_STATES` store. -/
abbrev Store := List (String × ProjectState)

/-- Result of an endpoint call: HTTP 404, an uncaught stage exception, or the
stream completing with the updated store and the emitted events. -/
inductive ApiResult (α : Type) where
  | notFound
  | stageError
  | ok (val : α)
deriving Repr, DecidableEq

/-- The initial state dict built by `generate_project`
(`app/api/agent_routes.py` lines 40-47). -/
def initialStateOf (prompt user_id : String) : ProjectState :=
  { original_prompt := prompt
    user_id := user_id
    conversation_history := []
    iteration_count := 0
    current_files := []
    user_feedback := none }

/-- `generate_project` (`app/api/agent_routes.py` lines 21-74): store a fresh
initial state under the (externally generated) project id, run the graph,
merge each yielded patch into the stored state with `dict.update`, and stream
the events. -/
def generate_project (project_id prompt user_id : String) (o : LLMOutcomes)
    (store : Store) : ApiResult (Store × List Event) :=
  let initial_state := initialStateOf prompt user_id
  let store1 := aset store project_id initial_state
  match runGraph o initial_state with
  | .error _ => .stageError
  | .ok trace =>
    let final_state := foldPatches initial_state trace
    .ok (aset store1 project_id final_state,
      genEvents project_id trace final_state.current_files)

/-- `refine_project` (`app/api/agent_routes.py` lines 77-113): 404 on an
unknown key; otherwise write the feedback into the stored state, increment
`iteration_count` (line 98), run the graph on that state, merge each yielded
patch into the stored state, and stream the events. -/
def refine_project (project_id feedback : String) (o : LLMOutcomes)
    (store : Store) : ApiResult (Store × List Event) :=
  match alookup store project_id with
  | none => .notFound
  | some state =>
    let state1 := { state with
      user_feedback := some feedback
      iteration_count := state.iteration_count + 1 }
    let store1 := aset store project_id state1
    match runGraph o state1 with
    | .error _ => .stageError
    | .ok trace =>
      let final_state := foldPatches state1 trace
      .ok (aset store1 project_id final_state,
        refineEvents project_id trace final_state.current_files)

/-- `get_status` (`app/api/agent_routes.py` lines 168-187): 404 on an unknown
key, leaving the store untouched; on a known key, `state["project_id"] =
project_id` writes into the stored dict itself (the local `state` aliases the
store entry) and that same dict is returned.  The result pairs the store
after the call with the optional response state. -/
def get_status (project_id : String) (store : Store) :
    Store × Option ProjectState :=
  match alookup store project_id with
  | none => (store, none)
  | some state =>
    let state1 := { state with project_id := some project_id }
    (aset store project_id state1, some state1)

/-! Helper lemmas about the dictionary embedding. -/

theorem applyPatch_empty (s : ProjectState) : applyPatch s emptyPatch = s := rfl

theorem applyPatch_feedback (s : ProjectState) (p : Patch) :
    (applyPatch s p).user_feedback = s.user_feedback := rfl

theorem hasKey_of_alookup_some {β : Type} {l : List (String × β)} {k : String} {v : β}
    (h : alookup l k = some v) : hasKey l k = true := by
  induction l with
  | nil => simp [alookup] at h
  | cons kv rest ih =>
    by_cases hk : kv.1 = k
    · simp [hasKey, hk]
    · rw [alookup, if_neg hk] at h
      simp [hasKey, ih h]

theorem alookup_map_overwrite {β : Type} {l : List (String × β)} {k : String} (v : β)
    (h : hasKey l k = true) :
    alookup (l.map fun kv => if kv.1 = k then (k, v) else kv) k = some v := by
  induction l with
  | nil => simp [hasKey] at h
  | cons kv rest ih =>
    by_cases hk : kv.1 = k
    · simp [alookup, hk]
    · simp only [List.map_cons, if_neg hk]
      rw [alookup, if_neg hk]
      rw [hasKey] at h
      simp [hk] at h
      exact ih h

theorem alookup_append_single {β : Type} (l : List (String × β)) (k : String) (v : β)
    (h : hasKey l k = false) : alookup (l ++ [(k, v)]) k = some v := by
  induction l with
  | nil => simp [alookup]
  | cons kv rest ih =>
    rw [hasKey] at h
    simp only [Bool.or_eq_false_iff, decide_eq_false_iff_not] at h
    rw [List.cons_append, alookup, if_neg h.1]
    exact ih h.2

theorem alookup_aset_self {β : Type} (l : List (String × β)) (k : String) (v : β) :
    alookup (aset l k v) k = some v := by
  unfold aset
  by_cases h : hasKey l k = true
  · rw [if_pos h]; exact alookup_map_overwrite v h
  · rw [if_neg h]
    exact alookup_append_single l k v (by simpa using h)

theorem alookup_map_ne {β : Type} (l : List (String × β)) {k k2 : String} (v : β)
    (h : k ≠ k2) :
    alookup (l.map fun kv => if kv.1 = k2 then (k2, v) else kv) k = alookup l k := by
  induction l with
  | nil => simp
  | cons kv rest ih =>
    by_cases h2 : kv.1 = k2
    · simp only [List.map_cons, if_pos h2]
      rw [alookup, alookup, if_neg (Ne.symm h), if_neg (h2 ▸ Ne.symm h)]
      exact ih
    · simp only [List.map_cons, if_neg h2]
      rw [alookup, alookup]
      by_cases h3 : kv.1 = k
      · simp [h3]
      · rw [if_neg h3, if_neg h3]; exact ih

theorem alookup_append_ne {β : Type} (l : List (String × β)) {k k2 : String} (v : β)
    (h : k ≠ k2) : alookup (l ++ [(k2, v)]) k = alookup l k := by
  induction l with
  | nil => simp [alookup, if_neg (Ne.symm h)]
  | cons kv rest ih =>
    rw [List.cons_append, alookup, alookup]
    by_cases h3 : kv.1 = k
    · simp [h3]
    · rw [if_neg h3, if_neg h3]; exact ih

theorem alookup_aset_ne {β : Type} (l : List (String × β)) {k k2 : String} (v : β)
    (h : k ≠ k2) : alookup (aset l k2 v) k = alookup l k := by
  unfold aset
  by_cases hk : hasKey l k2 = true
  · rw [if_pos hk]; exact alookup_map_ne l v h
  · rw [if_neg hk]; exact alookup_append_ne l v h

theorem hasKey_map_ne {β : Type} (l : List (String × β)) {k k2 : String} (v : β)
    (h : k ≠ k2) :
    hasKey (l.map fun kv => if kv.1 = k2 then (k2, v) else kv) k = hasKey l k := by
  induction l with
  | nil => simp
  | cons kv rest ih =>
    by_cases h2 : kv.1 = k2
    · simp only [List.map_cons, if_pos h2]
      rw [hasKey, hasKey, ih, h2]
    · simp only [List.map_cons, if_neg h2]
      rw [hasKey, hasKey, ih]

theorem hasKey_append_ne {β : Type} (l : List (String × β)) {k k2 : String} (v : β)
    (h : k ≠ k2) : hasKey (l ++ [(k2, v)]) k = hasKey l k := by
  induction l with
  | nil => simp [hasKey, if_neg (Ne.symm h), Ne.symm h]
  | cons kv rest ih =>
    rw [List.cons_append, hasKey, hasKey, ih]

theorem hasKey_aset_ne {β : Type} (l : List (String × β)) {k k2 : String} (v : β)
    (h : k ≠ k2) : hasKey (aset l k2 v) k = hasKey l k := by
  unfold aset
  by_cases hk : hasKey l k2 = true
  · rw [if_pos hk]; exact hasKey_map_ne l v h
  · rw [if_neg hk]; exact hasKey_append_ne l v h

theorem alookup_ne_nil {β : Type} {l : List (String × β)} {k : String} {v : β}
    (h : alookup l k = some v) : l ≠ [] := by
  intro e; subst e; simp [alookup] at h

theorem alookup_cons_head {β : Type} (kv : String × β) (rest : List (String × β)) :
    alookup (kv :: rest) kv.1 = some kv.2 := by
  simp [alookup]

theorem alookup_foldl_aset {α β : Type} (xs : List α) (keyF : α → String) (valF : α → β)
    (init : List (String × β)) (k : String) (h : ∀ x ∈ xs, keyF x ≠ k) :
    alookup (xs.foldl (fun fs x => aset fs (keyF x) (valF x)) init) k = alookup init k := by
  induction xs generalizing init with
  | nil => simp
  | cons x rest ih =>
    rw [List.foldl_cons]
    rw [ih _ (fun y hy => h y (List.mem_cons_of_mem x hy))]
    exact alookup_aset_ne init (valF x) (Ne.symm (h x (List.mem_cons_self x rest)))

theorem preserve_aset_absent {β : Type} {files : List (String × β)} {k : String} {v : β}
    (k2 : String) (v2 : β) (h : alookup files k = some v) (h2 : hasKey files k2 = false) :
    alookup (aset files k2 v2) k = some v := by
  have hk := hasKey_of_alookup_some h
  have hne : k ≠ k2 := by intro e; subst e; rw [hk] at h2; simp at h2
  rw [alookup_aset_ne files _ hne]; exact h

theorem preserve_step {β : Type} {files : List (String × β)} {k : String} {v : β}
    (c : Bool) (k2 : String) (v2 : β) (h : alookup files k = some v)
    (himp : c = false → hasKey files k2 = false) :
    alookup (if c then files else aset files k2 v2) k = some v := by
  cases c with
  | true => simpa using h
  | false => simpa using preserve_aset_absent k2 v2 h (himp rfl)

theorem hasKey_eq_true_iff {β : Type} (l : List (String × β)) (k : String) :
    hasKey l k = true ↔ ∃ kv ∈ l, kv.1 = k := by
  induction l with
  | nil => simp [hasKey]
  | cons kv rest ih =>
    rw [hasKey]
    simp [ih]

theorem listIsPre_self : ∀ l : List Char, listIsPre l l = true
  | [] => rfl
  | a :: as => by rw [listIsPre]; simp [listIsPre_self as]

theorem strIn_self (s : String) : strIn s s = true := by
  unfold strIn
  cases h : s.toList with
  | nil => rfl
  | cons c cs => rw [listInf]; simp [listIsPre_self]

theorem hasKey_false_of_any_sub_false {files : Files} {n : String}
    (hself : strIn n n = true) (h : files.any (fun kv => strIn n kv.1) = false) :
    hasKey files n = false := by
  by_contra hk
  rw [Bool.not_eq_false, hasKey_eq_true_iff] at hk
  obtain ⟨kv, hmem, hkv⟩ := hk
  rw [List.any_eq_false] at h
  have h2 := h kv hmem
  rw [hkv, hself] at h2
  exact h2 rfl

theorem hasKey_step {β : Type} {files : List (String × β)} {k : String}
    (c : Bool) (k2 : String) (v2 : β) (h : hasKey files k = false) (hne : k ≠ k2) :
    hasKey (if c then files else aset files k2 v2) k = false := by
  cases c with
  | true => simpa using h
  | false => simpa using (hasKey_aset_ne files v2 hne).trans h

/-- Every artifact key already bound keeps its binding across the file
organizer: each default is added only when its key is missing. -/
theorem organizeFiles_preserves {files : Files} {k : String} {v : String}
    (h : alookup files k = some v) : alookup (organizeFiles files) k = some v := by
  unfold organizeFiles
  apply preserve_step
  · apply preserve_step
    · apply preserve_step
      · apply preserve_step
        · apply preserve_step
          · apply preserve_step
            · exact h
            · intro hc
              exact hasKey_false_of_any_sub_false (strIn_self _) hc
          · intro hc
            apply hasKey_step
            · exact hasKey_false_of_any_sub_false (strIn_self _) hc
            · decide
        · intro hc; exact hc
      · intro hc; exact hc
    · intro hc; exact hc
  · intro hc; exact hc

/-- The organized file set always has at least one binding. -/
theorem organizeFiles_some_binding (files : Files) :
    ∃ k v, alookup (organizeFiles files) k = some v := by
  cases files with
  | nil => exact ⟨"package.json", foDefaultPackageJson, by rfl⟩
  | cons kv rest =>
    exact ⟨kv.1, kv.2, organizeFiles_preserves (alookup_cons_head kv rest)⟩

/-- The fallback file set binds the literal key "package.json" to the
template manifest, whatever the design spec contains. -/
theorem fallback_files_pkg (fl : List String) (ds : Option DesignSpec) :
    alookup (generate_fallback_files fl ds) "package.json" = some cgFallbackPackageJson := by
  unfold generate_fallback_files
  rw [alookup_foldl_aset]
  · rw [alookup_aset_ne _ _ (by decide), alookup_aset_ne _ _ (by decide),
      alookup_aset_ne _ _ (by decide), alookup_aset_ne _ _ (by decide),
      alookup_aset_ne _ _ (by decide), alookup_aset_ne _ _ (by decide),
      alookup_aset_ne _ _ (by decide)]
    exact alookup_aset_self [] "package.json" cgFallbackPackageJson
  · intro c _
    intro he
    have hlen := congrArg String.length he
    rw [String.length_append, String.length_append] at hlen
    have h1 : ("src/components/" : String).length = 15 := rfl
    have h2 : (".jsx" : String).length = 4 := rfl
    have h3 : ("package.json" : String).length = 12 := rfl
    omega

/-! Event-stream lemmas. -/

def isInitEv : Event → Bool
  | .init _ => true
  | _ => false

def isFilesEv : Event → Bool
  | .files _ => true
  | _ => false

def isCompleteEv : Event → Bool
  | .complete _ _ => true
  | _ => false

/-- The node names carried by the progress events, in order. -/
def progressNodes (evs : List Event) : List String :=
  evs.filterMap fun e =>
    match e with
    | .progress n _ => some n
    | _ => none

/-- Whether a patch dict is truthy and carries the `current_files` key (the
condition under which the generate stream emits a files event). -/
def touchesFiles (np : String × Patch) : Bool :=
  !np.2.isEmptyP && np.2.current_files.isSome

theorem nodeEvents_countP_init (np : String × Patch) :
    (nodeEvents np).countP isInitEv = 0 := by
  unfold nodeEvents
  by_cases h : (!np.2.isEmptyP && np.2.current_files.isSome) = true
  · simp [h, List.countP_cons, isInitEv]
  · simp [h, List.countP_cons, isInitEv]

theorem nodeEvents_countP_complete (np : String × Patch) :
    (nodeEvents np).countP isCompleteEv = 0 := by
  unfold nodeEvents
  by_cases h : (!np.2.isEmptyP && np.2.current_files.isSome) = true
  · simp [h, List.countP_cons, isCompleteEv]
  · simp [h, List.countP_cons, isCompleteEv]

theorem nodeEvents_countP_files (np : String × Patch) :
    (nodeEvents np).countP isFilesEv = if touchesFiles np then 1 else 0 := by
  unfold nodeEvents touchesFiles
  by_cases h : (!np.2.isEmptyP && np.2.current_files.isSome) = true
  · simp [h, List.countP_cons, isFilesEv]
  · simp [h, List.countP_cons, isFilesEv]

theorem nodeEvents_progressNodes (np : String × Patch) :
    progressNodes (nodeEvents np) = [np.1] := by
  unfold nodeEvents progressNodes
  by_cases h : (!np.2.isEmptyP && np.2.current_files.isSome) = true
  · simp [h, List.filterMap_cons]
  · simp [h, List.filterMap_cons]

theorem flatten_countP_init (tr : List (String × Patch)) :
    ((tr.map nodeEvents).flatten).countP isInitEv = 0 := by
  induction tr with
  | nil => rfl
  | cons np rest ih =>
    simp [List.countP_append, ih, nodeEvents_countP_init]

theorem flatten_countP_complete (tr : List (String × Patch)) :
    ((tr.map nodeEvents).flatten).countP isCompleteEv = 0 := by
  induction tr with
  | nil => rfl
  | cons np rest ih =>
    simp [List.countP_append, ih, nodeEvents_countP_complete]

theorem flatten_countP_files (tr : List (String × Patch)) :
    ((tr.map nodeEvents).flatten).countP isFilesEv = tr.countP touchesFiles := by
  induction tr with
  | nil => rfl
  | cons np rest ih =>
    simp [List.countP_append, ih, nodeEvents_countP_files, List.countP_cons]
    by_cases h : touchesFiles np = true <;> simp [h] <;> omega

theorem flatten_progressNodes (tr : List (String × Patch)) :
    progressNodes ((tr.map nodeEvents).flatten) = tr.map Prod.fst := by
  induction tr with
  | nil => rfl
  | cons np rest ih =>
    simp only [List.map_cons, List.flatten_cons]
    unfold progressNodes at ih ⊢
    rw [List.filterMap_append]
    have := nodeEvents_progressNodes np
    unfold progressNodes at this
    rw [this, ih]
    rfl

theorem genEvents_head (pid : String) (tr : List (String × Patch)) (fs : Files) :
    (genEvents pid tr fs).head? = some (Event.init pid) := rfl

theorem genEvents_last (pid : String) (tr : List (String × Patch)) (fs : Files) :
    (genEvents pid tr fs).getLast? = some (Event.complete pid fs) := by
  unfold genEvents
  exact List.getLast?_concat _

theorem genEvents_countP_init (pid : String) (tr : List (String × Patch)) (fs : Files) :
    (genEvents pid tr fs).countP isInitEv = 1 := by
  unfold genEvents
  rw [List.countP_append, List.countP_append, flatten_countP_init]
  simp [isInitEv, List.countP_cons]

theorem genEvents_countP_complete (pid : String) (tr : List (String × Patch)) (fs : Files) :
    (genEvents pid tr fs).countP isCompleteEv = 1 := by
  unfold genEvents
  rw [List.countP_append, List.countP_append, flatten_countP_complete]
  simp [isCompleteEv, List.countP_cons]

theorem genEvents_countP_files (pid : String) (tr : List (String × Patch)) (fs : Files) :
    (genEvents pid tr fs).countP isFilesEv = tr.countP touchesFiles := by
  unfold genEvents
  rw [List.countP_append, List.countP_append, flatten_countP_files]
  simp [isFilesEv, List.countP_cons]

theorem genEvents_progressNodes (pid : String) (tr : List (String × Patch)) (fs : Files) :
    progressNodes (genEvents pid tr fs) = tr.map Prod.fst := by
  unfold genEvents progressNodes
  rw [List.filterMap_append, List.filterMap_append]
  have := flatten_progressNodes tr
  unfold progressNodes at this
  rw [this]
  simp

theorem refineEvents_head (pid : String) (tr : List (String × Patch)) (fs : Files) :
    (refineEvents pid tr fs).head? = some (Event.init pid) := rfl

theorem refineEvents_last (pid : String) (tr : List (String × Patch)) (fs : Files) :
    (refineEvents pid tr fs).getLast? = some (Event.complete pid fs) := by
  unfold refineEvents
  exact List.getLast?_concat _

theorem refineEvents_countP_init (pid : String) (tr : List (String × Patch)) (fs : Files) :
    (refineEvents pid tr fs).countP isInitEv = 1 := by
  unfold refineEvents
  rw [List.countP_append, List.countP_append]
  have : (tr.map fun np => Event.progress np.1 "Refining...").countP isInitEv = 0 := by
    induction tr with
    | nil => rfl
    | cons np rest ih => simp [List.countP_cons, isInitEv, ih]
  simp [this, isInitEv, List.countP_cons]

theorem refineEvents_countP_complete (pid : String) (tr : List (String × Patch)) (fs : Files) :
    (refineEvents pid tr fs).countP isCompleteEv = 1 := by
  unfold refineEvents
  rw [List.countP_append, List.countP_append]
  have : (tr.map fun np => Event.progress np.1 "Refining...").countP isCompleteEv = 0 := by
    induction tr with
    | nil => rfl
    | cons np rest ih => simp [List.countP_cons, isCompleteEv, ih]
  simp [this, isCompleteEv, List.countP_cons]

theorem refineEvents_countP_files (pid : String) (tr : List (String × Patch)) (fs : Files) :
    (refineEvents pid tr fs).countP isFilesEv = 0 := by
  unfold refineEvents
  rw [List.countP_append, List.countP_append]
  have : (tr.map fun np => Event.progress np.1 "Refining...").countP isFilesEv = 0 := by
    induction tr with
    | nil => rfl
    | cons np rest ih => simp [List.countP_cons, isFilesEv, ih]
  simp [this, isFilesEv, List.countP_cons]

theorem refineEvents_progressNodes (pid : String) (tr : List (String × Patch)) (fs : Files) :
    progressNodes (refineEvents pid tr fs) = tr.map Prod.fst := by
  unfold refineEvents progressNodes
  rw [List.filterMap_append, List.filterMap_append]
  have : (tr.map fun np => Event.progress np.1 "Refining...").filterMap
      (fun e => match e with | .progress n _ => some n | _ => none) = tr.map Prod.fst := by
    induction tr with
    | nil => rfl
    | cons np rest ih => simp [List.filterMap_cons, ih]
  simp [this]

/-- The node-name sequence of every successful traversal is one of the three
routes of the graph. -/
theorem runGraph_nodes (o : LLMOutcomes) (s0 : ProjectState) (tr : List (String × Patch))
    (h : runGraph o s0 = .ok tr) :
    tr.map Prod.fst = ["router", "refinement", "file_organizer", "qa"] ∨
    tr.map Prod.fst = ["router", "classifier", "research", "design", "code_generator",
      "file_organizer", "qa"] ∨
    tr.map Prod.fst = ["router", "classifier", "code_generator", "file_organizer", "qa"] := by
  simp only [runGraph] at h
  split at h
  · split at h
    · exact absurd h (by simp)
    · left
      injection h with h
      subst h
      rfl
  · split at h
    · split at h
      · exact absurd h (by simp)
      · split at h
        · exact absurd h (by simp)
        · right; left
          injection h with h
          subst h
          rfl
    · right; right
      injection h with h
      subst h
      rfl

/-! Branch characterizations of `runGraph`: the three routes of the graph and
the failure cases of the unguarded stages. -/

/-- The patch `refinement_agent` returns on a successful LLM call with truthy
feedback. -/
def refinementPatch (s : ProjectState) (updates : List (String × String)) : Patch :=
  { current_files := some (updates.foldl (fun fs f => aset fs f.1 f.2) s.current_files)
    iteration_count := some (s.iteration_count + 1) }

/-- The files carried by the code generator's patch (the LLM files on
success, the template fallback on failure). -/
def codegenFiles (llm : LLMRes Files) (s : ProjectState) : Files :=
  (code_generator_agent llm s).current_files.getD []

theorem codegen_files_some (llm : LLMRes Files) (s : ProjectState) :
    (code_generator_agent llm s).current_files = some (codegenFiles llm s) := by
  cases llm <;> rfl

/-- The refine-route trace. -/
def refineTraceOf (o : LLMOutcomes) (s : ProjectState) (updates : List (String × String)) :
    List (String × Patch) :=
  let p1 := refinementPatch s updates
  let s2 := applyPatch s p1
  let p2 := file_organizer_agent s2
  let s3 := applyPatch s2 p2
  [("router", emptyPatch), ("refinement", p1), ("file_organizer", p2), ("qa", qa_agent o.qa s3)]

/-- The classifier-to-generator trace (no research). -/
def simpleTraceOf (o : LLMOutcomes) (s : ProjectState) : List (String × Patch) :=
  let p1 := classifier_agent o.classify s
  let s2 := applyPatch s p1
  let p2 := code_generator_agent o.codegen s2
  let s3 := applyPatch s2 p2
  let p3 := file_organizer_agent s3
  let s4 := applyPatch s3 p3
  [("router", emptyPatch), ("classifier", p1), ("code_generator", p2),
   ("file_organizer", p3), ("qa", qa_agent o.qa s4)]

/-- The research-route trace. -/
def researchTraceOf (o : LLMOutcomes) (s : ProjectState) (summary : String)
    (spec : DesignSpec) : List (String × Patch) :=
  let p1 := classifier_agent o.classify s
  let s2 := applyPatch s p1
  let p2 : Patch := { research_context := some summary }
  let s3 := applyPatch s2 p2
  let p3 : Patch := { design_spec := some spec }
  let s4 := applyPatch s3 p3
  let p4 := code_generator_agent o.codegen s4
  let s5 := applyPatch s4 p4
  let p5 := file_organizer_agent s5
  let s6 := applyPatch s5 p5
  [("router", emptyPatch), ("classifier", p1), ("research", p2), ("design", p3),
   ("code_generator", p4), ("file_organizer", p5), ("qa", qa_agent o.qa s6)]

theorem route_start_of_truthy {s : ProjectState} (h : truthyStr s.user_feedback = true) :
    route_start s = "refinement" := by
  rw [route_start, h]; rfl

theorem route_start_of_falsy {s : ProjectState} (h : truthyStr s.user_feedback = false) :
    route_start s = "classifier" := by
  rw [route_start, h]; rfl

theorem refinement_agent_ok (s : ProjectState) (updates : List (String × String))
    (h : truthyStr s.user_feedback = true) :
    refinement_agent (.ok updates) s = .ok (refinementPatch s updates) := by
  rw [refinement_agent, h]; rfl

theorem runGraph_refine_ok (o : LLMOutcomes) (s : ProjectState)
    (updates : List (String × String)) (hfb : truthyStr s.user_feedback = true)
    (hllm : o.refine = .ok updates) :
    runGraph o s = .ok (refineTraceOf o s updates) := by
  rw [runGraph]
  simp only [applyPatch_empty]
  rw [if_pos (route_start_of_truthy hfb), hllm, refinement_agent_ok s updates hfb]
  rfl

theorem runGraph_refine_fail (o : LLMOutcomes) (s : ProjectState)
    (hfb : truthyStr s.user_feedback = true) (hllm : o.refine = .fail) :
    runGraph o s = .error () := by
  rw [runGraph]
  simp only [applyPatch_empty]
  rw [if_pos (route_start_of_truthy hfb), hllm]
  rw [refinement_agent, hfb]
  rfl

theorem runGraph_simple (o : LLMOutcomes) (s : ProjectState)
    (hfb : truthyStr s.user_feedback = false)
    (hroute : route_classifier (applyPatch s (classifier_agent o.classify s)) ≠ "research") :
    runGraph o s = .ok (simpleTraceOf o s) := by
  rw [runGraph]
  simp only [applyPatch_empty]
  rw [if_neg (by rw [route_start_of_falsy hfb]; decide), if_neg hroute]
  rfl

theorem runGraph_research_ok (o : LLMOutcomes) (s : ProjectState) (summary : String)
    (spec : DesignSpec) (hfb : truthyStr s.user_feedback = false)
    (hroute : route_classifier (applyPatch s (classifier_agent o.classify s)) = "research")
    (hres : o.research = .ok summary) (hdes : o.design = .ok spec) :
    runGraph o s = .ok (researchTraceOf o s summary spec) := by
  rw [runGraph]
  simp only [applyPatch_empty]
  rw [if_neg (by rw [route_start_of_falsy hfb]; decide), if_pos hroute, hres, hdes]
  rfl

theorem runGraph_research_fail (o : LLMOutcomes) (s : ProjectState)
    (hfb : truthyStr s.user_feedback = false)
    (hroute : route_classifier (applyPatch s (classifier_agent o.classify s)) = "research")
    (hres : o.research = .fail) :
    runGraph o s = .error () := by
  rw [runGraph]
  simp only [applyPatch_empty]
  rw [if_neg (by rw [route_start_of_falsy hfb]; decide), if_pos hroute, hres]
  rfl

theorem runGraph_design_fail (o : LLMOutcomes) (s : ProjectState) (summary : String)
    (hfb : truthyStr s.user_feedback = false)
    (hroute : route_classifier (applyPatch s (classifier_agent o.classify s)) = "research")
    (hres : o.research = .ok summary) (hdes : o.design = .fail) :
    runGraph o s = .error () := by
  rw [runGraph]
  simp only [applyPatch_empty]
  rw [if_neg (by rw [route_start_of_falsy hfb]; decide), if_pos hroute, hres, hdes]
  rfl

/-! Field values of the merged final state on each route. -/

theorem final_refine_fields (o : LLMOutcomes) (s : ProjectState)
    (updates : List (String × String)) :
    (foldPatches s (refineTraceOf o s updates)).user_feedback = s.user_feedback ∧
    (foldPatches s (refineTraceOf o s updates)).iteration_count = s.iteration_count + 1 ∧
    (foldPatches s (refineTraceOf o s updates)).current_files =
      organizeFiles (updates.foldl (fun fs f => aset fs f.1 f.2) s.current_files) := by
  refine ⟨rfl, ?_, ?_⟩ <;> cases hq : o.qa <;>
    simp [foldPatches, refineTraceOf, refinementPatch, applyPatch, qa_agent,
      file_organizer_agent, hq, emptyPatch]

theorem final_simple_fields (o : LLMOutcomes) (s : ProjectState) :
    (foldPatches s (simpleTraceOf o s)).user_feedback = s.user_feedback ∧
    (foldPatches s (simpleTraceOf o s)).iteration_count = s.iteration_count ∧
    (foldPatches s (simpleTraceOf o s)).current_files =
      organizeFiles (codegenFiles o.codegen (applyPatch s (classifier_agent o.classify s))) := by
  refine ⟨rfl, ?_, ?_⟩ <;>
    cases hc : o.classify <;> cases hg : o.codegen <;> cases hq : o.qa <;>
      simp [foldPatches, simpleTraceOf, applyPatch, qa_agent, file_organizer_agent,
        classifier_agent, code_generator_agent, codegenFiles, hc, hg, hq, emptyPatch]

theorem final_research_fields (o : LLMOutcomes) (s : ProjectState) (summary : String)
    (spec : DesignSpec) :
    (foldPatches s (researchTraceOf o s summary spec)).user_feedback = s.user_feedback ∧
    (foldPatches s (researchTraceOf o s summary spec)).iteration_count = s.iteration_count ∧
    (foldPatches s (researchTraceOf o s summary spec)).current_files =
      organizeFiles (codegenFiles o.codegen
        (applyPatch (applyPatch (applyPatch s (classifier_agent o.classify s))
          { research_context := some summary }) { design_spec := some spec })) := by
  refine ⟨rfl, ?_, ?_⟩ <;>
    cases hc : o.classify <;> cases hg : o.codegen <;> cases hq : o.qa <;>
      simp [foldPatches, researchTraceOf, applyPatch, qa_agent, file_organizer_agent,
        classifier_agent, code_generator_agent, codegenFiles, hc, hg, hq, emptyPatch]

/-! Characterizations of successful endpoint calls. -/

/-- The stored state just before a refine traversal starts: feedback written
and the counter incremented by the endpoint (`agent_routes.py` lines 96-98). -/
abbrev refineStart (st : ProjectState) (fb : String) : ProjectState :=
  { st with user_feedback := some fb, iteration_count := st.iteration_count + 1 }

theorem generate_ok_characterization (pid prompt uid : String) (o : LLMOutcomes)
    (store store2 : Store) (evs : List Event)
    (h : generate_project pid prompt uid o store = .ok (store2, evs)) :
    ∃ tr, runGraph o (initialStateOf prompt uid) = .ok tr ∧
      store2 = aset (aset store pid (initialStateOf prompt uid)) pid
        (foldPatches (initialStateOf prompt uid) tr) ∧
      evs = genEvents pid tr (foldPatches (initialStateOf prompt uid) tr).current_files := by
  simp only [generate_project] at h
  cases hg : runGraph o (initialStateOf prompt uid) with
  | error e => rw [hg] at h; simp at h
  | ok tr =>
    rw [hg] at h
    injection h with h
    injection h with h1 h2
    exact ⟨tr, rfl, h1.symm, h2.symm⟩

theorem refine_ok_characterization (pid fb : String) (o : LLMOutcomes)
    (store store2 : Store) (evs : List Event) (st : ProjectState)
    (hst : alookup store pid = some st) (hfb : fb ≠ "")
    (h : refine_project pid fb o store = .ok (store2, evs)) :
    ∃ updates, o.refine = .ok updates ∧
      store2 = aset (aset store pid (refineStart st fb)) pid
        (foldPatches (refineStart st fb) (refineTraceOf o (refineStart st fb) updates)) ∧
      evs = refineEvents pid (refineTraceOf o (refineStart st fb) updates)
        (foldPatches (refineStart st fb)
          (refineTraceOf o (refineStart st fb) updates)).current_files := by
  simp only [refine_project, hst] at h
  have htr : truthyStr (refineStart st fb).user_feedback = true := by
    simp [refineStart, truthyStr, hfb]
  cases hre : o.refine with
  | fail =>
    rw [runGraph_refine_fail o (refineStart st fb) htr hre] at h
    simp at h
  | ok updates =>
    rw [runGraph_refine_ok o (refineStart st fb) updates htr hre] at h
    injection h with h
    injection h with h1 h2
    exact ⟨updates, rfl, h1.symm, h2.symm⟩

theorem runGraph_initial_cases (o : LLMOutcomes) (s : ProjectState)
    (hfb : truthyStr s.user_feedback = false) (tr : List (String × Patch))
    (h : runGraph o s = .ok tr) :
    tr = simpleTraceOf o s ∨
    ∃ summary spec, o.research = .ok summary ∧ o.design = .ok spec ∧
      tr = researchTraceOf o s summary spec := by
  by_cases hr : route_classifier (applyPatch s (classifier_agent o.classify s)) = "research"
  · cases hres : o.research with
    | fail =>
      rw [runGraph_research_fail o s hfb hr hres] at h
      simp at h
    | ok summary =>
      cases hdes : o.design with
      | fail =>
        rw [runGraph_design_fail o s summary hfb hr hres hdes] at h
        simp at h
      | ok spec =>
        right
        refine ⟨summary, spec, rfl, rfl, ?_⟩
        rw [runGraph_research_ok o s summary spec hfb hr hres hdes] at h
        injection h with h
        exact h.symm
  · left
    rw [runGraph_simple o s hfb hr] at h
    injection h with h
    exact h.symm

/-- The updated store of a successful endpoint call (empty store otherwise). -/
def resStore (r : ApiResult (Store × List Event)) : Store :=
  match r with
  | .ok (s, _) => s
  | _ => []

/-- The emitted events of a successful endpoint call (empty otherwise). -/
def resEvents (r : ApiResult (Store × List Event)) : List Event :=
  match r with
  | .ok (_, e) => e
  | _ => []

/-- Whether an endpoint call completed its stream. -/
def resIsOk {α : Type} : ApiResult α → Bool
  | .ok _ => true
  | _ => false

/-! Claim theorems. -/

/-- C4: the entry node (`route_start`) routes to the refinement stage if
and only if `user_feedback` is a present, non-empty string; for every state
with absent (`None`) or empty feedback it routes to the classifier, never to
refinement. -/
theorem c4_route_start_iff_feedback (s : ProjectState) :
    (route_start s = "refinement" ↔ ∃ f, s.user_feedback = some f ∧ f ≠ "") ∧
    ((s.user_feedback = none ∨ s.user_feedback = some "") → route_start s = "classifier") := by
  cases hf : s.user_feedback with
  | none => simp [route_start, truthyStr, hf]
  | some f =>
    by_cases he : f = ""
    · subst he
      simp [route_start, truthyStr, hf]
    · simp [route_start, truthyStr, hf, he]

/-- Witness for C4 at concrete states: feedback "fix" routes to refinement,
absent feedback routes to classifier. -/
theorem c4_witness :
    route_start { original_prompt := "p", user_id := "u", user_feedback := some "fix" } =
      "refinement" ∧
    route_start { original_prompt := "p", user_id := "u" } = "classifier" := by
  constructor
  · exact (c4_route_start_iff_feedback _).1.mpr ⟨"fix", rfl, by decide⟩
  · exact (c4_route_start_iff_feedback _).2 (Or.inl rfl)

/-- C5 counterexample: on a state whose classification record is missing or
lacks the user-level and complexity fields, `route_classifier` selects
"code_generator", not "research" as the claim asserts. -/
theorem c5_counterexample :
    route_classifier
        { original_prompt := "p", user_id := "u", classification := some {} } =
      "code_generator" ∧
    route_classifier
        { original_prompt := "p", user_id := "u", classification := none } =
      "code_generator" ∧
    ("code_generator" : String) ≠ "research" := by
  exact ⟨rfl, rfl, by decide⟩

/-- C5 (amended): missing classification fields are treated as non-novice
and non-complex, so a state with a missing classification record, or one
lacking the user-level and complexity fields, is routed to the generation
stage (`code_generator`) rather than erroring. -/
theorem c5_missing_fields_route_generate (s : ProjectState) (c : Classification)
    (h : s.classification = none ∨
      (s.classification = some c ∧ c.user_level = none ∧ c.complexity = none)) :
    route_classifier s = "code_generator" := by
  rcases h with h | ⟨h, h1, h2⟩
  · simp [route_classifier, h]
  · simp [route_classifier, h, h1, h2]

/-- Witness for the amended C5 at a concrete state with no classification. -/
theorem c5_witness :
    route_classifier { original_prompt := "p", user_id := "u" } = "code_generator" :=
  c5_missing_fields_route_generate _ {} (Or.inl rfl)

/-- C6: with a present classification, `route_classifier` selects "research"
iff the user level is "beginner" (novice) or the complexity is "complex"
(high), and otherwise selects "code_generator"; in particular a beginner
classification always yields research and a non-beginner, "simple" one
always yields the generator. -/
theorem c6_route_classifier_cases (s : ProjectState) (c : Classification)
    (h : s.classification = some c) :
    (route_classifier s = "research" ↔
      (c.user_level = some "beginner" ∨ c.complexity = some "complex")) ∧
    (¬(c.user_level = some "beginner" ∨ c.complexity = some "complex") →
      route_classifier s = "code_generator") ∧
    (c.user_level = some "beginner" → route_classifier s = "research") ∧
    (c.user_level ≠ some "beginner" → c.complexity = some "simple" →
      route_classifier s = "code_generator") := by
  refine ⟨?_, ?_, ?_, ?_⟩
  · by_cases hc : c.user_level = some "beginner" ∨ c.complexity = some "complex"
    · simp [route_classifier, h, hc]
    · simp [route_classifier, h, hc]
  · intro hc
    simp [route_classifier, h, hc]
  · intro hb
    simp [route_classifier, h, hb]
  · intro hb hs
    have hc : ¬(c.user_level = some "beginner" ∨ c.complexity = some "complex") := by
      rintro (h1 | h2)
      · exact hb h1
      · rw [hs] at h2
        exact absurd h2 (by decide)
    simp [route_classifier, h, hc]

/-- Witness for C6 at concrete classifications: beginner routes to research,
non-beginner simple routes to the generator. -/
theorem c6_witness :
    route_classifier
        { original_prompt := "p", user_id := "u",
          classification := some { user_level := some "beginner" } } = "research" ∧
    route_classifier
        { original_prompt := "p", user_id := "u",
          classification :=
            some { user_level := some "advanced", complexity := some "simple" } } =
      "code_generator" := by
  constructor
  · exact (c6_route_classifier_cases _ _ rfl).2.2.1 rfl
  · exact (c6_route_classifier_cases _ _ rfl).2.2.2 (by decide) rfl

/-- A concrete stored project state with two artifact keys. -/
def c1_state : ProjectState :=
  { original_prompt := "build a counter", user_id := "u1",
    current_files := [("a.txt", "A"), ("b.txt", "B")] }

/-- A stage patch touching only artifacts["a.txt"]. -/
def c1_patch : Patch := { current_files := some [("a.txt", "A2")] }

/-- The same stored state with pending feedback (refine route). -/
def c1_fb_state : ProjectState := { c1_state with user_feedback := some "fix" }

/-- C1 counterexample: merging a stage patch that touches only
artifacts["a.txt"] into the store (`PROJECT_STATES[...].update(value)`,
`agent_routes.py` line 61, embedded as `applyPatch`) drops the other
existing artifact key "b.txt": the artifacts mapping is replaced wholesale,
not merged per key. -/
theorem c1_counterexample :
    alookup c1_state.current_files "b.txt" = some "B" ∧
    alookup (applyPatch c1_state c1_patch).current_files "b.txt" = none ∧
    alookup (applyPatch c1_state c1_patch).current_files "a.txt" = some "A2" :=
  ⟨rfl, rfl, rfl⟩

/-- C1 (amended): the store merge replaces each top-level key wholesale,
including the whole artifacts mapping, so a patch mapping only "a.txt" drops
the other keys; per-artifact-key preservation holds at the stage level
instead: the refinement stage builds its patch from a copy of the prior
mapping, so after its patch is merged every artifact key not among its
updates keeps its prior content, and merging the file organizer's patch
preserves every existing artifact binding. -/
theorem c1_stage_patches_preserve_artifacts :
    (∀ (s : ProjectState) (updates : List (String × String)) (p : Patch) (k v : String),
      truthyStr s.user_feedback = true →
      refinement_agent (.ok updates) s = .ok p →
      (∀ u ∈ updates, u.1 ≠ k) →
      alookup s.current_files k = some v →
      alookup (applyPatch s p).current_files k = some v) ∧
    (∀ (s : ProjectState) (k v : String),
      alookup s.current_files k = some v →
      alookup (applyPatch s (file_organizer_agent s)).current_files k = some v) := by
  constructor
  · intro s updates p k v hfb hp hk h
    rw [refinement_agent_ok s updates hfb] at hp
    injection hp with hp
    subst hp
    have he : (applyPatch s (refinementPatch s updates)).current_files =
        updates.foldl (fun fs f => aset fs f.1 f.2) s.current_files := rfl
    rw [he, alookup_foldl_aset updates Prod.fst Prod.snd s.current_files k hk]
    exact h
  · intro s k v h
    have he : (applyPatch s (file_organizer_agent s)).current_files =
        organizeFiles s.current_files := rfl
    rw [he]
    exact organizeFiles_preserves h

/-- Witness for the amended C1: at the concrete store state, both the
refinement patch updating only "a.txt" and the organizer patch keep
"b.txt" bound to "B". -/
theorem c1_witness :
    alookup (applyPatch c1_fb_state (refinementPatch c1_fb_state [("a.txt", "A2")])
      ).current_files "b.txt" = some "B" ∧
    alookup (applyPatch c1_state (file_organizer_agent c1_state)
      ).current_files "b.txt" = some "B" := by
  constructor
  · exact c1_stage_patches_preserve_artifacts.1 c1_fb_state [("a.txt", "A2")] _ "b.txt" "B"
      (by decide) rfl (by decide) rfl
  · exact c1_stage_patches_preserve_artifacts.2 c1_state "b.txt" "B" rfl

/-- A concrete stored project and fully successful LLM outcomes for a refine
call. -/
def c2_state : ProjectState :=
  { original_prompt := "build a counter", user_id := "u1",
    current_files := [("index.html", "<p>x</p>")] }

def c2_o : LLMOutcomes :=
  { classify := .ok {}, research := .ok "r", design := .ok {},
    codegen := .ok [], refine := .ok [("index.html", "<p>blue</p>")], qa := .ok "ok" }

/-- C2 counterexample: one completed refine traversal on a stored project
whose counter is 0 leaves `iteration_count` at 2, not 1: the endpoint
increments it before the traversal (`agent_routes.py` line 98) and the
refinement stage patch increments it again (`refinement.py` line 60). -/
theorem c2_counterexample :
    c2_state.iteration_count = 0 ∧
    (match refine_project "p1" "make it blue" c2_o [("p1", c2_state)] with
      | .ok (store2, _) => (alookup store2 "p1").map (fun st => st.iteration_count)
      | _ => none) = some 2 ∧
    (2 : Nat) ≠ 0 + 1 :=
  ⟨rfl, rfl, by decide⟩

/-- C2 (amended): a completed refine traversal with non-empty feedback
increases the stored `iteration_count` by exactly 2 (one increment at the
endpoint before the traversal, one in the refinement stage patch), and a
completed initial generate traversal stores it as 0; no operation ever
decreases it. -/
theorem c2_iteration_count_increments :
    (∀ (store : Store) (pid fb : String) (o : LLMOutcomes) (store2 : Store)
        (evs : List Event) (st : ProjectState),
      alookup store pid = some st → fb ≠ "" →
      refine_project pid fb o store = .ok (store2, evs) →
      ∃ st2, alookup store2 pid = some st2 ∧
        st2.iteration_count = st.iteration_count + 2) ∧
    (∀ (pid prompt uid : String) (o : LLMOutcomes) (store store2 : Store)
        (evs : List Event),
      generate_project pid prompt uid o store = .ok (store2, evs) →
      ∃ st2, alookup store2 pid = some st2 ∧ st2.iteration_count = 0) := by
  constructor
  · intro store pid fb o store2 evs st hst hfb h
    obtain ⟨updates, _, hs2, _⟩ := refine_ok_characterization pid fb o store store2 evs st
      hst hfb h
    refine ⟨foldPatches (refineStart st fb) (refineTraceOf o (refineStart st fb) updates),
      ?_, ?_⟩
    · rw [hs2]; exact alookup_aset_self _ pid _
    · rw [(final_refine_fields o (refineStart st fb) updates).2.1]
  · intro pid prompt uid o store store2 evs h
    obtain ⟨tr, hg, hs2, _⟩ := generate_ok_characterization pid prompt uid o store store2 evs h
    have hfb : truthyStr (initialStateOf prompt uid).user_feedback = false := rfl
    refine ⟨foldPatches (initialStateOf prompt uid) tr,
      by rw [hs2]; exact alookup_aset_self _ pid _, ?_⟩
    rcases runGraph_initial_cases o _ hfb tr hg with htr | ⟨summary, spec, _, _, htr⟩
    · subst htr
      rw [(final_simple_fields o (initialStateOf prompt uid)).2.1]
      rfl
    · subst htr
      rw [(final_research_fields o (initialStateOf prompt uid) summary spec).2.1]
      rfl

/-- Witness for the amended C2: concrete refine run ends at counter 2 from 0;
concrete generate run stores counter 0. -/
theorem c2_witness :
    (∃ st2, alookup
        (match refine_project "p1" "make it blue" c2_o [("p1", c2_state)] with
          | .ok (store2, _) => store2
          | _ => []) "p1" = some st2 ∧
      st2.iteration_count = c2_state.iteration_count + 2) ∧
    (∃ st2, alookup
        (match generate_project "p9" "build a timer" "u2" c2_o [] with
          | .ok (store2, _) => store2
          | _ => []) "p9" = some st2 ∧
      st2.iteration_count = 0) := by
  constructor
  · exact c2_iteration_count_increments.1 [("p1", c2_state)] "p1" "make it blue" c2_o
      _ _ c2_state rfl (by decide) rfl
  · exact c2_iteration_count_increments.2 "p9" "build a timer" "u2" c2_o [] _ _ rfl

/-- Outcomes forcing the research stage to fail after a beginner
classification. -/
def c3_o : LLMOutcomes :=
  { classify := .ok { user_level := some "beginner" }, research := .fail,
    design := .ok {}, codegen := .ok [], refine := .ok [], qa := .ok "ok" }

/-- A state with pending feedback (for the refinement-failure case). -/
def c3_fb_state : ProjectState :=
  { original_prompt := "x", user_id := "u", user_feedback := some "darker" }

/-- C3 counterexample: the research stage has no fallback: when its LLM call
fails it raises, the traversal aborts with an error instead of reaching the
terminal node, and the generate endpoint surfaces a stage error. -/
theorem c3_counterexample :
    research_agent .fail (initialStateOf "x" "u") = .error () ∧
    runGraph c3_o (initialStateOf "x" "u") = .error () ∧
    generate_project "p1" "x" "u" c3_o [] = .stageError :=
  ⟨rfl, rfl, rfl⟩

/-- C3 (amended): only the classifier and the code generator absorb an
internal failure with a deterministic, non-empty fallback patch (as does the
spec-modelled review stage); the research, design and refinement stages have
no fallback: their failure propagates and aborts the traversal.  The file
organizer performs no external call. -/
theorem c3_fallback_status :
    (∀ s : ProjectState, classifier_agent .fail s =
        { classification := some (fallback_classification s.original_prompt) } ∧
      (classifier_agent .fail s).isEmptyP = false) ∧
    (∀ s : ProjectState,
      (code_generator_agent .fail s).isEmptyP = false ∧
      ∀ fl ds, generate_fallback_files fl ds ≠ []) ∧
    (∀ (s : ProjectState) (llm : LLMRes String), (qa_agent llm s).isEmptyP = false) ∧
    (∀ s : ProjectState, research_agent .fail s = .error ()) ∧
    (∀ s : ProjectState, design_agent .fail s = .error ()) ∧
    (∀ s : ProjectState, truthyStr s.user_feedback = true →
      refinement_agent .fail s = .error ()) := by
  refine ⟨fun s => ⟨rfl, rfl⟩, fun s => ⟨rfl, fun fl ds => ?_⟩,
    fun s llm => ?_, fun s => rfl, fun s => rfl, fun s h => ?_⟩
  · exact alookup_ne_nil (fallback_files_pkg fl ds)
  · cases llm <;> rfl
  · rw [refinement_agent, h]
    rfl

/-- Witness for the amended C3 at concrete states. -/
theorem c3_witness :
    classifier_agent .fail (initialStateOf "x" "u") =
      { classification := some (fallback_classification "x") } ∧
    generate_fallback_files [] none ≠ [] ∧
    research_agent .fail (initialStateOf "x" "u") = .error () ∧
    design_agent .fail (initialStateOf "x" "u") = .error () ∧
    refinement_agent .fail c3_fb_state = .error () := by
  refine ⟨?_, ?_, ?_, ?_, ?_⟩
  · exact (c3_fallback_status.1 (initialStateOf "x" "u")).1
  · exact (c3_fallback_status.2.1 (initialStateOf "x" "u")).2 [] none
  · exact c3_fallback_status.2.2.2.1 (initialStateOf "x" "u")
  · exact c3_fallback_status.2.2.2.2.1 (initialStateOf "x" "u")
  · exact c3_fallback_status.2.2.2.2.2 c3_fb_state (by decide)

/-- A concrete stored project for the status claim. -/
def c8_state : ProjectState := { original_prompt := "x", user_id := "u" }

def c8_store : Store := [("p1", c8_state)]

/-- C8: status on an unknown key returns not-found and leaves the store
untouched, as the claim says; but status on a known key is not read-only:
`state["project_id"] = project_id` (`agent_routes.py` line 186) writes into
the stored record itself, because the local `state` aliases the store entry
— only the `project_id` field changes. -/
theorem c8_status_mutates_store :
    (get_status "zz" c8_store).1 = c8_store ∧
    (get_status "zz" c8_store).2 = none ∧
    (get_status "p1" c8_store).1 ≠ c8_store ∧
    alookup (get_status "p1" c8_store).1 "p1" =
      some { c8_state with project_id := some "p1" } ∧
    (get_status "p1" c8_store).2 = some { c8_state with project_id := some "p1" } :=
  ⟨rfl, rfl, by decide, rfl, rfl⟩

/-- Stored project and outcomes for the feedback-persistence claim. -/
def c10_state : ProjectState :=
  { original_prompt := "build a counter", user_id := "u1",
    current_files := [("index.html", "<p>x</p>")] }

def c10_o : LLMOutcomes :=
  { classify := .ok {}, research := .ok "r", design := .ok {},
    codegen := .ok [], refine := .ok [("index.html", "<p>blue</p>")], qa := .ok "ok" }

/-- C10: after a completed refine traversal the stored `user_feedback` still
equals the submitted feedback — neither the endpoint nor any stage on the
refine path (refinement, file organizer, spec-modelled review) writes that
key — so the entry router sends a traversal started from the stored state to
the refinement stage again. -/
theorem c10_feedback_persists (store : Store) (pid fb : String) (o : LLMOutcomes)
    (store2 : Store) (evs : List Event) (st : ProjectState)
    (hst : alookup store pid = some st) (hfb : fb ≠ "")
    (h : refine_project pid fb o store = .ok (store2, evs)) :
    ∃ st2, alookup store2 pid = some st2 ∧ st2.user_feedback = some fb ∧
      route_start st2 = "refinement" := by
  obtain ⟨updates, _, hs2, _⟩ :=
    refine_ok_characterization pid fb o store store2 evs st hst hfb h
  have hfbv := (final_refine_fields o (refineStart st fb) updates).1
  refine ⟨foldPatches (refineStart st fb) (refineTraceOf o (refineStart st fb) updates),
    ?_, ?_, ?_⟩
  · rw [hs2]; exact alookup_aset_self _ pid _
  · rw [hfbv]
  · exact route_start_of_truthy (by rw [hfbv]; simp [truthyStr, hfb])

/-- Witness for C10: a concrete refine run keeps the feedback and routes to
refinement again. -/
theorem c10_witness :
    ∃ st2, alookup (resStore (refine_project "p1" "make it blue" c10_o
        [("p1", c10_state)])) "p1" = some st2 ∧
      st2.user_feedback = some "make it blue" ∧ route_start st2 = "refinement" :=
  c10_feedback_persists [("p1", c10_state)] "p1" "make it blue" c10_o _ _ c10_state
    rfl (by decide) rfl

/-- Outcomes with the generation LLM call forced to fail. -/
def c9_o : LLMOutcomes :=
  { classify := .ok {}, research := .ok "r", design := .ok {},
    codegen := .fail, refine := .ok [], qa := .ok "ok" }

/-- C9: every completed generate traversal stores a non-empty artifact
mapping, and when the generation stage's LLM call is forced to fail the
stored mapping contains a key ending in "package.json" (the literal
fallback manifest key).  The review stage is modelled from the spec and
writes only execution results. -/
theorem c9_generate_yields_artifacts (pid prompt uid : String) (o : LLMOutcomes)
    (store store2 : Store) (evs : List Event)
    (h : generate_project pid prompt uid o store = .ok (store2, evs)) :
    ∃ st2, alookup store2 pid = some st2 ∧ st2.current_files ≠ [] ∧
      (o.codegen = .fail → ∃ k v, alookup st2.current_files k = some v ∧
        strEndsW k "package.json" = true) := by
  obtain ⟨tr, hg, hs2, _⟩ := generate_ok_characterization pid prompt uid o store store2 evs h
  refine ⟨foldPatches (initialStateOf prompt uid) tr,
    by rw [hs2]; exact alookup_aset_self _ pid _, ?_⟩
  obtain ⟨sPre, hcf⟩ : ∃ sPre, (foldPatches (initialStateOf prompt uid) tr).current_files =
      organizeFiles (codegenFiles o.codegen sPre) := by
    rcases runGraph_initial_cases o (initialStateOf prompt uid) rfl tr hg with
      htr | ⟨summary, spec, _, _, htr⟩
    · subst htr
      exact ⟨_, (final_simple_fields o _).2.2⟩
    · subst htr
      exact ⟨_, (final_research_fields o _ summary spec).2.2⟩
  constructor
  · obtain ⟨k, v, hk⟩ := organizeFiles_some_binding (codegenFiles o.codegen sPre)
    rw [hcf]
    exact alookup_ne_nil hk
  · intro hfail
    have hpkg : alookup (codegenFiles o.codegen sPre) "package.json" =
        some cgFallbackPackageJson := by
      rw [codegenFiles, hfail]
      exact fallback_files_pkg
        (match sPre.design_spec with | some d => d.file_structure | none => [])
        sPre.design_spec
    refine ⟨"package.json", cgFallbackPackageJson, ?_, by decide⟩
    rw [hcf]
    exact organizeFiles_preserves hpkg

/-- Witness for C9: a concrete generate run with the generation stage forced
to fail stores non-empty artifacts with a package.json key. -/
theorem c9_witness :
    ∃ st2, alookup (resStore (generate_project "p1" "build a counter" "u1" c9_o []))
        "p1" = some st2 ∧ st2.current_files ≠ [] ∧
      (c9_o.codegen = .fail → ∃ k v, alookup st2.current_files k = some v ∧
        strEndsW k "package.json" = true) :=
  c9_generate_yields_artifacts "p1" "build a counter" "u1" c9_o [] _ _ rfl

/-- Stored project and outcomes whose refinement patch touches the artifact
mapping. -/
def c7_state : ProjectState :=
  { original_prompt := "x", user_id := "u",
    current_files := [("index.html", "<p>a</p>")] }

def c7_o : LLMOutcomes :=
  { classify := .ok {}, research := .ok "r", design := .ok {},
    codegen := .ok [("src/App.jsx", "x")], refine := .ok [("index.html", "<p>b</p>")],
    qa := .ok "ok" }

/-- C7 counterexample: a completed refine traversal whose refinement-stage
patch touches the artifacts mapping emits no files notification at all: the
refine stream generator (`agent_routes.py` lines 100-111) has no files
branch, contradicting the claim for refine traversals. -/
theorem c7_counterexample :
    resIsOk (refine_project "p1" "blue" c7_o [("p1", c7_state)]) = true ∧
    (resEvents (refine_project "p1" "blue" c7_o [("p1", c7_state)])).countP isFilesEv = 0 ∧
    (resEvents (refine_project "p1" "blue" c7_o [("p1", c7_state)])).countP
      isCompleteEv = 1 ∧
    (refinementPatch (refineStart c7_state "blue")
      [("index.html", "<p>b</p>")]).current_files.isSome = true :=
  ⟨rfl, rfl, rfl, rfl⟩

/-- C7 (amended): per traversal the stream starts with exactly one init
event, emits one progress event per executed node in execution order with no
node repeated, and ends with exactly one complete event (the last event,
carrying the final artifacts) after which the generator is exhausted.  A
generate stream additionally emits one files event per patch that is
non-empty and touches the artifacts mapping; a refine stream emits no files
events at all, even for such patches. -/
theorem c7_event_stream_shape :
    (∀ (pid prompt uid : String) (o : LLMOutcomes) (store store2 : Store)
        (evs : List Event),
      generate_project pid prompt uid o store = .ok (store2, evs) →
      ∃ tr, runGraph o (initialStateOf prompt uid) = .ok tr ∧
        evs.head? = some (.init pid) ∧ evs.countP isInitEv = 1 ∧
        (∃ fs, evs.getLast? = some (.complete pid fs)) ∧ evs.countP isCompleteEv = 1 ∧
        progressNodes evs = tr.map Prod.fst ∧ (tr.map Prod.fst).Nodup ∧
        evs.countP isFilesEv = tr.countP touchesFiles) ∧
    (∀ (pid fb : String) (o : LLMOutcomes) (store store2 : Store) (evs : List Event)
        (st : ProjectState),
      alookup store pid = some st → fb ≠ "" →
      refine_project pid fb o store = .ok (store2, evs) →
      ∃ tr, runGraph o (refineStart st fb) = .ok tr ∧
        evs.head? = some (.init pid) ∧ evs.countP isInitEv = 1 ∧
        (∃ fs, evs.getLast? = some (.complete pid fs)) ∧ evs.countP isCompleteEv = 1 ∧
        progressNodes evs = tr.map Prod.fst ∧ (tr.map Prod.fst).Nodup ∧
        evs.countP isFilesEv = 0) := by
  constructor
  · intro pid prompt uid o store store2 evs h
    obtain ⟨tr, hg, _, hevs⟩ :=
      generate_ok_characterization pid prompt uid o store store2 evs h
    subst hevs
    refine ⟨tr, hg, genEvents_head _ _ _, genEvents_countP_init _ _ _,
      ⟨_, genEvents_last _ _ _⟩, genEvents_countP_complete _ _ _,
      genEvents_progressNodes _ _ _, ?_, genEvents_countP_files _ _ _⟩
    rcases runGraph_nodes o _ tr hg with hn | hn | hn <;> rw [hn] <;> decide
  · intro pid fb o store store2 evs st hst hfb h
    obtain ⟨updates, hre, _, hevs⟩ :=
      refine_ok_characterization pid fb o store store2 evs st hst hfb h
    subst hevs
    have htr : truthyStr (refineStart st fb).user_feedback = true := by
      simp [truthyStr, hfb]
    have hg := runGraph_refine_ok o (refineStart st fb) updates htr hre
    refine ⟨refineTraceOf o (refineStart st fb) updates, hg,
      refineEvents_head _ _ _, refineEvents_countP_init _ _ _,
      ⟨_, refineEvents_last _ _ _⟩, refineEvents_countP_complete _ _ _,
      refineEvents_progressNodes _ _ _, ?_, refineEvents_countP_files _ _ _⟩
    rcases runGraph_nodes o _ _ hg with hn | hn | hn <;> rw [hn] <;> decide

/-- Witness for the amended C7: a concrete generate run satisfies the
stream-shape properties. -/
theorem c7_witness :
    ∃ tr, runGraph c7_o (initialStateOf "build a counter" "u1") = .ok tr ∧
      (resEvents (generate_project "p2" "build a counter" "u1" c7_o [])).head? =
        some (.init "p2") ∧
      (resEvents (generate_project "p2" "build a counter" "u1" c7_o [])).countP
        isInitEv = 1 ∧
      (∃ fs, (resEvents (generate_project "p2" "build a counter" "u1" c7_o [])).getLast? =
        some (.complete "p2" fs)) ∧
      (resEvents (generate_project "p2" "build a counter" "u1" c7_o [])).countP
        isCompleteEv = 1 ∧
      progressNodes (resEvents (generate_project "p2" "build a counter" "u1" c7_o [])) =
        tr.map Prod.fst ∧ (tr.map Prod.fst).Nodup ∧
      (resEvents (generate_project "p2" "build a counter" "u1" c7_o [])).countP
        isFilesEv = tr.countP touchesFiles :=
  c7_event_stream_shape.1 "p2" "build a counter" "u1" c7_o [] _ _ rfl

end BridgeIDE
